import Mathlib

/-!
Shallow embedding of the RAG service (config.py, rag_engine.py, main.py).

The repository wires LangChain components (PyPDFLoader, RecursiveCharacterTextSplitter,
GoogleGenerativeAIEmbeddings, Chroma, create_retrieval_chain) behind a `RAGEngine`
class and a FastAPI adapter.  External collaborators (PDF parsing, embedding
provider, Chroma persistence, LLM generation) are modelled as an oracle `Env` of
abstract functions; the repository's own control flow (initialisation branch,
ingestion order, query assembly, rebuild, singleton, HTTP error mapping) is
translated statement by statement.  Filesystem facts the code branches on are a
`World` record; observable external calls are collected in an event trace.
-/

namespace RagJuridico

/-! ### config.py constants -/

/-- config.py: `LLM_MODEL = "gemini-1.5-flash"`. -/
def LLM_MODEL : String := "gemini-1.5-flash"

/-- config.py: `LLM_TEMPERATURE = 0`. -/
def LLM_TEMPERATURE : Int := 0

/-- config.py: `EMBEDDING_MODEL = "models/text-embedding-004"`. -/
def EMBEDDING_MODEL : String := "models/text-embedding-004"

/-- config.py: `CHUNK_SIZE = 5000`. -/
def CHUNK_SIZE : Nat := 5000

/-- config.py: `CHUNK_OVERLAP = 1000`. -/
def CHUNK_OVERLAP : Nat := 1000

/-- config.py: `RETRIEVER_K = 3`. -/
def RETRIEVER_K : Nat := 3

/-- config.py: `VECTORSTORE_DIR = BASE_DIR / "vectorstore"`, kept as a path string. -/
def VECTORSTORE_DIR : String := "vectorstore"

/-- config.py: `PDF_PATH = DATA_DIR / "constitucion_colombia.pdf"`, kept as a path string. -/
def PDF_PATH : String := "data/constitucion_colombia.pdf"

/-! ### Data model -/

/-- A LangChain document: `page_content` plus the `page` entry of its metadata
dict (`none` when the metadata has no `page` key). -/
structure Doc where
  page_content : String
  metadataPage : Option Nat
deriving DecidableEq, Repr

/-- Value of the `page` field of a returned source: either a page number from the
metadata or the literal string `N/A` (rag_engine.py line 147). -/
inductive PageVal where
  | num (n : Nat)
  | na
deriving DecidableEq, Repr

/-- One entry of the `sources` list assembled by `RAGEngine.query`. -/
structure Source where
  page : PageVal
  content : String
deriving DecidableEq, Repr

/-- The dict returned by `RAGEngine.query`: answer, sources, question. -/
structure QueryResult where
  answer : String
  sources : List Source
  question : String
deriving DecidableEq, Repr

/-- Python exceptions that can cross the boundaries the claims talk about.  Each
carries the message `str(e)` would show. -/
inductive Err where
  | fileNotFound (msg : String)
  | embeddingError (msg : String)
  | storeError (msg : String)
  | generationError (msg : String)
  | attributeError (msg : String)
deriving DecidableEq, Repr

/-- `str(e)` of an exception: its message. -/
def Err.str : Err → String
  | .fileNotFound m => m
  | .embeddingError m => m
  | .storeError m => m
  | .generationError m => m
  | .attributeError m => m

/-- Pipeline phase an error belongs to (spec section 7 taxonomy). -/
inductive Phase where
  | load
  | embed
  | retrieve
  | generate
  | other
deriving DecidableEq, Repr

/-- Phase of each error kind. -/
def Err.phase : Err → Phase
  | .fileNotFound _ => .load
  | .embeddingError _ => .embed
  | .storeError _ => .retrieve
  | .generationError _ => .generate
  | .attributeError _ => .other

/-- Observable external effects of the pipeline, in program order. -/
inductive Event where
  | loadPdf
  | splitDocuments
  | embedCall
  | chromaBuild
  | chromaLoad
  | deleteDir
  | retrieve
  | generate
deriving DecidableEq, Repr

/-- Filesystem facts the code branches on or mutates:
presence of `VECTORSTORE_DIR/chroma.sqlite3`, of the vectorstore directory
itself, and of the source PDF at `PDF_PATH`. -/
structure World where
  chromaSqlite3Exists : Bool
  vectorstoreDirExists : Bool
  pdfExists : Bool
deriving DecidableEq, Repr

/-- Oracle for the external collaborators: what the PDF loader returns, what the
splitter produces, whether the embedding provider fails during `Chroma.from_documents`,
and what the retrieval chain's two stages return for a question. -/
structure Env where
  pdfPages : List Doc
  splitDocs : List Doc → List Doc
  embedFails : Bool
  retrieveResult : String → Except Err (List Doc)
  generateResult : String → List Doc → Except Err String

/-! ### Engine state -/

/-- `ChatGoogleGenerativeAI(model=LLM_MODEL, temperature=LLM_TEMPERATURE)`. -/
structure LLMHandle where
  model : String
  temperature : Int
deriving DecidableEq, Repr

/-- `GoogleGenerativeAIEmbeddings(model=EMBEDDING_MODEL)`. -/
structure EmbeddingsHandle where
  model : String
deriving DecidableEq, Repr

/-- A Chroma handle: either opened from the persist directory
(`_load_vectorstore`) or freshly built from splits (`_create_vectorstore`). -/
inductive VectorStore where
  | loadedFrom (persistDir : String)
  | builtFrom (splits : List Doc)
deriving DecidableEq, Repr

/-- `create_retrieval_chain(retriever, document_chain)`: the retriever's `k` and
the vectorstore it wraps. -/
structure RagChain where
  retrieverK : Nat
  store : VectorStore
deriving DecidableEq, Repr

/-- The four instance fields set in `RAGEngine.__init__` (all start as `None`). -/
structure RAGEngine where
  llm : Option LLMHandle
  embeddings : Option EmbeddingsHandle
  vectorstore : Option VectorStore
  rag_chain : Option RagChain
deriving DecidableEq, Repr

/-! ### Operation results: the post-state is returned even when an exception
propagates, because Python leaves mutations behind on raise. -/

/-- Result of a stateful engine method returning nothing. -/
structure EngineStep where
  out : Except Err Unit
  engine : RAGEngine
  world : World
  trace : List Event
deriving Repr

/-- Result of `RAGEngine()` construction: the object on success, else the exception. -/
structure ConstructStep where
  out : Except Err RAGEngine
  world : World
  trace : List Event
deriving Repr

/-- Result of `RAGEngine.query`. -/
structure QueryStep where
  out : Except Err QueryResult
  engine : RAGEngine
  world : World
  trace : List Event
deriving Repr

/-- Result of `get_rag_engine()`: returned engine (or exception), the module
global `_rag_instance` afterwards, world and trace. -/
structure GetStep where
  out : Except Err RAGEngine
  inst : Option RAGEngine
  world : World
  trace : List Event
deriving Repr

/-! ### rag_engine.py operations -/

/-- rag_engine.py `_vectorstore_exists`: `(VECTORSTORE_DIR / "chroma.sqlite3").exists()`. -/
def vectorstoreExists (w : World) : Bool :=
  w.chromaSqlite3Exists

/-- rag_engine.py `_load_vectorstore`: `self.vectorstore = Chroma(persist_directory=str(VECTORSTORE_DIR), embedding_function=self.embeddings)`. -/
def loadVectorstore (e : RAGEngine) : RAGEngine :=
  { e with vectorstore := some (.loadedFrom VECTORSTORE_DIR) }

/-- Message of the `FileNotFoundError` raised by `_create_vectorstore`
(console emoji omitted). -/
def pdfNotFoundMsg : String :=
  "PDF no encontrado en: " ++ PDF_PATH ++
    "\nPor favor, coloca constitucion_colombia.pdf en la carpeta data/"

/-- rag_engine.py `_create_vectorstore`: raise `FileNotFoundError` if the PDF is
missing; else `loader.load()`, `text_splitter.split_documents(documents)`,
`Chroma.from_documents(documents=splits, embedding=self.embeddings,
persist_directory=str(VECTORSTORE_DIR))` (which embeds every split and persists
the index, creating the catalog file).  A provider failure during the embedding
pass propagates as `EmbeddingError` with nothing persisted. -/
def createVectorstore (env : Env) (e : RAGEngine) (w : World) : EngineStep :=
  if w.pdfExists = false then
    ⟨.error (.fileNotFound pdfNotFoundMsg), e, w, []⟩
  else
    let documents := env.pdfPages
    let splits := env.splitDocs documents
    if env.embedFails then
      ⟨.error (.embeddingError "embedding provider failure"), e, w,
        [.loadPdf, .splitDocuments]⟩
    else
      ⟨.ok (), { e with vectorstore := some (.builtFrom splits) },
        { w with chromaSqlite3Exists := true, vectorstoreDirExists := true },
        [.loadPdf, .splitDocuments, .embedCall, .chromaBuild]⟩

/-- rag_engine.py `_create_rag_chain`: `self.vectorstore.as_retriever(search_kwargs={"k": RETRIEVER_K})`
then `create_retrieval_chain`; on `self.vectorstore = None` Python raises
`AttributeError`. -/
def createRagChain (e : RAGEngine) : Except Err RAGEngine :=
  match e.vectorstore with
  | none => .error (.attributeError "NoneType object has no attribute as_retriever")
  | some vs => .ok { e with rag_chain := some ⟨RETRIEVER_K, vs⟩ }

/-- rag_engine.py `_initialize`: set `llm` and `embeddings`; if
`_vectorstore_exists()` then `_load_vectorstore()` else `_create_vectorstore()`;
finally `_create_rag_chain()`. -/
def engineInit (env : Env) (e : RAGEngine) (w : World) : EngineStep :=
  let e1 : RAGEngine :=
    { e with llm := some ⟨LLM_MODEL, LLM_TEMPERATURE⟩,
             embeddings := some ⟨EMBEDDING_MODEL⟩ }
  if vectorstoreExists w then
    let e2 := loadVectorstore e1
    match createRagChain e2 with
    | .error err => ⟨.error err, e2, w, [.chromaLoad]⟩
    | .ok e3 => ⟨.ok (), e3, w, [.chromaLoad]⟩
  else
    let r := createVectorstore env e1 w
    match r.out with
    | .error err => ⟨.error err, r.engine, r.world, r.trace⟩
    | .ok () =>
      match createRagChain r.engine with
      | .error err => ⟨.error err, r.engine, r.world, r.trace⟩
      | .ok e3 => ⟨.ok (), e3, r.world, r.trace⟩

/-- rag_engine.py `RAGEngine.__init__`: all four fields start `None`, then
`_initialize()`; construction yields the object, or the exception if
`_initialize` raised (the half-initialised object is never bound). -/
def RAGEngine.construct (env : Env) (w : World) : ConstructStep :=
  let r := engineInit env ⟨none, none, none, none⟩ w
  match r.out with
  | .ok () => ⟨.ok r.engine, r.world, r.trace⟩
  | .error err => ⟨.error err, r.world, r.trace⟩

/-- rag_engine.py `query` lines 146-149: one source dict per context document:
`"page": doc.metadata.get("page", "N/A")` and
`"content": doc.page_content[:200] + "..." if len(doc.page_content) > 200 else doc.page_content`. -/
def mkSource (doc : Doc) : Source :=
  { page := match doc.metadataPage with
      | some n => .num n
      | none => .na,
    content := if doc.page_content.length > 200 then
        doc.page_content.take 200 ++ "..."
      else
        doc.page_content }

/-- `self.rag_chain.invoke({"input": question})`: `create_retrieval_chain` first
runs the retriever on the question, then the stuff-documents chain (the LLM);
either stage may raise.  On success the response dict carries the context
documents and the answer. -/
def chainInvoke (env : Env) (question : String) :
    Except Err (List Doc × String) × List Event :=
  match env.retrieveResult question with
  | .error err => (.error err, [.retrieve])
  | .ok docs =>
    match env.generateResult question docs with
    | .error err => (.error err, [.retrieve, .generate])
    | .ok ans => (.ok (docs, ans), [.retrieve, .generate])

/-- rag_engine.py `RAGEngine.query`: invoke the chain, build `sources` from
`response.get("context", [])`, return `{"answer", "sources", "question"}`.  The
method assigns no instance field and touches no file. -/
def RAGEngine.query (env : Env) (e : RAGEngine) (w : World) (question : String) :
    QueryStep :=
  match e.rag_chain with
  | none =>
    ⟨.error (.attributeError "NoneType object has no attribute invoke"), e, w, []⟩
  | some _chain =>
    match chainInvoke env question with
    | (.error err, tr) => ⟨.error err, e, w, tr⟩
    | (.ok (docs, ans), tr) =>
      ⟨.ok ⟨ans, docs.map mkSource, question⟩, e, w, tr⟩

/-- rag_engine.py `rebuild_vectorstore`: if `VECTORSTORE_DIR.exists()` then
`shutil.rmtree(VECTORSTORE_DIR); VECTORSTORE_DIR.mkdir()` (the catalog file is
gone, the directory is recreated empty); then `_create_vectorstore()` and
`_create_rag_chain()`.  An exception from either propagates, leaving the fields
as they were at that point. -/
def RAGEngine.rebuild (env : Env) (e : RAGEngine) (w : World) : EngineStep :=
  let wiped :=
    if w.vectorstoreDirExists then
      ({ w with chromaSqlite3Exists := false }, [Event.deleteDir])
    else
      (w, [])
  let r := createVectorstore env e wiped.1
  match r.out with
  | .error err => ⟨.error err, r.engine, r.world, wiped.2 ++ r.trace⟩
  | .ok () =>
    match createRagChain r.engine with
    | .error err => ⟨.error err, r.engine, r.world, wiped.2 ++ r.trace⟩
    | .ok e3 => ⟨.ok (), e3, r.world, wiped.2 ++ r.trace⟩

/-- rag_engine.py `get_rag_engine`: module global `_rag_instance`; construct on
first call, afterwards return the stored instance unchanged. -/
def getRagEngine (env : Env) (inst : Option RAGEngine) (w : World) : GetStep :=
  match inst with
  | some e => ⟨.ok e, some e, w, []⟩
  | none =>
    let r := RAGEngine.construct env w
    match r.out with
    | .ok e => ⟨.ok e, some e, r.world, r.trace⟩
    | .error err => ⟨.error err, none, r.world, r.trace⟩

/-! ### main.py — HTTP adapter -/

/-- main.py `QueryRequest`: pydantic field constraints
`min_length=3, max_length=500` on `question`; FastAPI enforces them before the
handler body runs. -/
def queryRequestValid (question : String) : Bool :=
  3 ≤ question.length && question.length ≤ 500

/-- HTTP outcome of `POST /query`: a `QueryResponse`, a 422 validation rejection
(request never reaches the handler), or the handler's
`HTTPException(status_code=500, detail=...)`. -/
inductive QueryHttp where
  | ok (r : QueryResult)
  | error422
  | error500 (detail : String)
deriving DecidableEq, Repr

/-- Result of one `POST /query` request: response plus the module state after. -/
structure QueryEndpointStep where
  resp : QueryHttp
  inst : Option RAGEngine
  world : World
  trace : List Event
deriving Repr

/-- main.py `query_constitution`: after pydantic validation, `get_rag_engine()`
then `engine.query(request.question)`; any exception is mapped to
`HTTPException(500, detail=f"Error al procesar consulta: " + str(e))`. -/
def queryEndpoint (env : Env) (inst : Option RAGEngine) (w : World)
    (question : String) : QueryEndpointStep :=
  if queryRequestValid question = false then
    ⟨.error422, inst, w, []⟩
  else
    let g := getRagEngine env inst w
    match g.out with
    | .error err =>
      ⟨.error500 ("Error al procesar consulta: " ++ err.str), g.inst, g.world,
        g.trace⟩
    | .ok e =>
      let q := RAGEngine.query env e g.world question
      match q.out with
      | .ok r => ⟨.ok r, some q.engine, q.world, g.trace ++ q.trace⟩
      | .error err =>
        ⟨.error500 ("Error al procesar consulta: " ++ err.str), some q.engine,
          q.world, g.trace ++ q.trace⟩

/-- HTTP outcome of `POST /rebuild-vectorstore`: the success dict
`{"status", "message"}` or the 500 detail. -/
inductive RebuildHttp where
  | success (status message : String)
  | error500 (detail : String)
deriving DecidableEq, Repr

/-- Result of one `POST /rebuild-vectorstore` request. -/
structure RebuildEndpointStep where
  resp : RebuildHttp
  inst : Option RAGEngine
  world : World
  trace : List Event
deriving Repr

/-- main.py `rebuild_vectorstore` endpoint: `get_rag_engine()` then
`engine.rebuild_vectorstore()`; on success a success dict, on any exception
`HTTPException(500, detail=f"Error al reconstruir vectorstore: " + str(e))`.
The singleton keeps pointing at the same (in-place mutated) engine object. -/
def rebuildEndpoint (env : Env) (inst : Option RAGEngine) (w : World) :
    RebuildEndpointStep :=
  let g := getRagEngine env inst w
  match g.out with
  | .error err =>
    ⟨.error500 ("Error al reconstruir vectorstore: " ++ err.str), g.inst,
      g.world, g.trace⟩
  | .ok e =>
    let r := RAGEngine.rebuild env e g.world
    match r.out with
    | .ok () =>
      ⟨.success "success" "Vectorstore reconstruido exitosamente",
        some r.engine, r.world, g.trace ++ r.trace⟩
    | .error err =>
      ⟨.error500 ("Error al reconstruir vectorstore: " ++ err.str),
        some r.engine, r.world, g.trace ++ r.trace⟩

/-- main.py `HealthResponse` model. -/
structure HealthResponse where
  status : String
  message : String
  vectorstore_ready : Bool
deriving DecidableEq, Repr

/-- Result of one `GET /health` request: always a `HealthResponse`. -/
structure HealthStep where
  resp : HealthResponse
  inst : Option RAGEngine
  world : World
  trace : List Event
deriving Repr

/-- main.py `health_check`: try `get_rag_engine()`; on success report
`healthy` with `vectorstore_ready = (engine.vectorstore is not None)`; on any
exception report `unhealthy` with `vectorstore_ready = False`.  Total: every
path returns a `HealthResponse`. -/
def healthCheck (env : Env) (inst : Option RAGEngine) (w : World) : HealthStep :=
  let g := getRagEngine env inst w
  match g.out with
  | .ok e =>
    ⟨⟨"healthy", "API funcionando correctamente", e.vectorstore.isSome⟩,
      g.inst, g.world, g.trace⟩
  | .error err =>
    ⟨⟨"unhealthy", "Error: " ++ err.str, false⟩, g.inst, g.world, g.trace⟩

/-! ### Spec-side definition for the refinement claim about source previews -/

/-- Written from the words of claim C3 (spec section 4.7): the preview equals
the full text when it has at most 200 characters, and the first 200 characters
followed by the ellipsis marker when longer.  To be compared with `mkSource`. -/
def specSource (doc : Doc) : Source :=
  { page := match doc.metadataPage with
      | some n => .num n
      | none => .na,
    content := if doc.page_content.length ≤ 200 then
        doc.page_content
      else
        doc.page_content.take 200 ++ "..." }

/-- The documents the retriever stage returns for a question (empty when the
stage fails). -/
def retrievedDocs (env : Env) (question : String) : List Doc :=
  match env.retrieveResult question with
  | .ok docs => docs
  | .error _ => []

/-! ### Concrete fixtures for witnesses and counterexamples -/

/-- A short context document (49 characters) carrying page metadata. -/
def docShort : Doc :=
  ⟨"Articulo 86. Toda persona tendra accion de tutela", some 4⟩

/-- A long context document (250 characters) whose metadata has no page key. -/
def docLong : Doc :=
  ⟨String.mk (List.replicate 250 (Char.ofNat 97)), none⟩

/-- Benign environment: a one-page PDF, identity splitter, working providers,
retrieval returning `docShort` and `docLong` for any question. -/
def envA : Env :=
  { pdfPages := [docShort],
    splitDocs := fun ds => ds,
    embedFails := false,
    retrieveResult := fun _ => .ok [docShort, docLong],
    generateResult := fun _ _ => .ok "La tutela es un mecanismo constitucional" }

/-- Environment whose retrieval stage fails with message `fallo`. -/
def envRetFail : Env :=
  { envA with retrieveResult := fun _ => .error (.storeError "fallo") }

/-- Environment whose generation stage fails with message `fallo`. -/
def envGenFail : Env :=
  { envA with generateResult := fun _ _ => .error (.generationError "fallo") }

/-- World with a persisted catalog, the store directory and the PDF all present. -/
def wReady : World := ⟨true, true, true⟩

/-- World with no persisted catalog but the directory and the PDF present. -/
def wFresh : World := ⟨false, true, true⟩

/-- World with a persisted catalog but the PDF missing. -/
def wNoPdf : World := ⟨true, true, false⟩

/-- World with neither a persisted catalog nor the PDF. -/
def wNoCatNoPdf : World := ⟨false, true, false⟩

/-- The engine `RAGEngine.construct envA wReady` produces (load path). -/
def engineReady : RAGEngine :=
  { llm := some ⟨LLM_MODEL, LLM_TEMPERATURE⟩,
    embeddings := some ⟨EMBEDDING_MODEL⟩,
    vectorstore := some (.loadedFrom VECTORSTORE_DIR),
    rag_chain := some ⟨RETRIEVER_K, .loadedFrom VECTORSTORE_DIR⟩ }

/-- The engine `RAGEngine.construct envA wFresh` produces (ingestion path). -/
def engineFresh : RAGEngine :=
  { llm := some ⟨LLM_MODEL, LLM_TEMPERATURE⟩,
    embeddings := some ⟨EMBEDDING_MODEL⟩,
    vectorstore := some (.builtFrom [docShort]),
    rag_chain := some ⟨RETRIEVER_K, .builtFrom [docShort]⟩ }

/-- The query result `RAGEngine.query envA engineReady wReady "hola"` produces. -/
def resultA : QueryResult :=
  ⟨"La tutela es un mecanismo constitucional",
   [docShort, docLong].map mkSource, "hola"⟩

/-- A question of length 501 (above the pydantic maximum). -/
def q501 : String := String.mk (List.replicate 501 (Char.ofNat 97))

/-! ### Theorems -/

/-- The source assembly of rag_engine.py lines 146-149 coincides with the
spec's description of a preview: identical page field, and the content is the
full text iff it has at most 200 characters, else the first 200 characters plus
the ellipsis marker. -/
theorem mkSource_eq_specSource : mkSource = specSource := by
  funext doc
  unfold mkSource specSource
  by_cases h : doc.page_content.length ≤ 200
  · simp [h, Nat.not_lt.2 h]
  · simp [h, Nat.lt_of_not_le h]

/-- C3: for every retrieved document in a successful query result, the source
content equals the document text when it has at most 200 characters, and the
first 200 characters followed by the ellipsis marker when longer: the sources
list is exactly the retrieved documents mapped through the spec's preview. -/
theorem c3_source_preview (env : Env) (e : RAGEngine) (w : World) (q : String)
    (r : QueryResult) (h : (RAGEngine.query env e w q).out = .ok r) :
    r.sources = (retrievedDocs env q).map specSource := by
  cases hc : e.rag_chain with
  | none => simp [RAGEngine.query, hc] at h
  | some ch =>
    cases hr : env.retrieveResult q with
    | error err => simp [RAGEngine.query, chainInvoke, hc, hr] at h
    | ok docs =>
      cases hg : env.generateResult q docs with
      | error err => simp [RAGEngine.query, chainInvoke, hc, hr, hg] at h
      | ok ans =>
        simp [RAGEngine.query, chainInvoke, hc, hr, hg] at h
        rw [← h]
        simp [retrievedDocs, hr, mkSource_eq_specSource]

/-- C3 witness: the benign fixture exercises both the short and the truncated
branch. -/
theorem c3_witness :
    resultA.sources = (retrievedDocs envA "hola").map specSource :=
  c3_source_preview envA engineReady wReady "hola" resultA rfl

/-- C5: when the configured PDF path does not exist, ingestion raises
`FileNotFoundError` with the engine and world untouched and an empty trace: no
page is loaded, no chunk produced, no embedding call made. -/
theorem c5_pdf_missing (env : Env) (e : RAGEngine) (w : World)
    (h : w.pdfExists = false) :
    (createVectorstore env e w).out = .error (.fileNotFound pdfNotFoundMsg) ∧
    (createVectorstore env e w).trace = [] ∧
    (createVectorstore env e w).engine = e ∧
    (createVectorstore env e w).world = w := by
  simp [createVectorstore, h]

/-- C5 witness: ingestion on a fresh engine with the PDF absent. -/
theorem c5_witness :
    (createVectorstore envA ⟨none, none, none, none⟩ wNoCatNoPdf).out =
        .error (.fileNotFound pdfNotFoundMsg) ∧
    (createVectorstore envA ⟨none, none, none, none⟩ wNoCatNoPdf).trace = [] ∧
    (createVectorstore envA ⟨none, none, none, none⟩ wNoCatNoPdf).engine =
        ⟨none, none, none, none⟩ ∧
    (createVectorstore envA ⟨none, none, none, none⟩ wNoCatNoPdf).world =
        wNoCatNoPdf :=
  c5_pdf_missing envA ⟨none, none, none, none⟩ wNoCatNoPdf rfl

/-- C6: `query` is state-preserving: whether it returns or raises, the engine
fields and the world are unchanged and the trace contains no index mutation
(no build, no delete). -/
theorem c6_query_frame (env : Env) (e : RAGEngine) (w : World) (q : String) :
    (RAGEngine.query env e w q).engine = e ∧
    (RAGEngine.query env e w q).world = w ∧
    Event.chromaBuild ∉ (RAGEngine.query env e w q).trace ∧
    Event.deleteDir ∉ (RAGEngine.query env e w q).trace := by
  cases hc : e.rag_chain with
  | none => simp [RAGEngine.query, hc]
  | some ch =>
    cases hr : env.retrieveResult q with
    | error err => simp [RAGEngine.query, chainInvoke, hc, hr]
    | ok docs =>
      cases hg : env.generateResult q docs with
      | error err => simp [RAGEngine.query, chainInvoke, hc, hr, hg]
      | ok ans => simp [RAGEngine.query, chainInvoke, hc, hr, hg]

/-- C9: a retrieved document whose metadata has no page key does not make the
query fail; its source carries the `N/A` page marker. -/
theorem c9_missing_page_defaults (env : Env) (e : RAGEngine) (w : World)
    (q : String) (docs : List Doc) (ans : String)
    (hc : e.rag_chain.isSome = true)
    (hr : env.retrieveResult q = .ok docs)
    (hg : env.generateResult q docs = .ok ans) :
    (RAGEngine.query env e w q).out = .ok ⟨ans, docs.map mkSource, q⟩ ∧
    ∀ doc ∈ docs, doc.metadataPage = none → (mkSource doc).page = PageVal.na := by
  constructor
  · cases hch : e.rag_chain with
    | none => rw [hch] at hc; simp at hc
    | some ch => simp [RAGEngine.query, chainInvoke, hch, hr, hg]
  · intro doc _ hnone
    simp [mkSource, hnone]

/-- C1: on construction, if the persisted catalog file exists the engine loads
the persisted index and performs no ingestion (trace is exactly the load); if
it does not exist, no load happens and a successful construction performs the
full ingestion sequence (load PDF, split, embed, build-and-persist).  The
branch on `chroma.sqlite3` makes the two paths exclusive. -/
theorem c1_load_or_ingest (env : Env) (w : World) :
    (w.chromaSqlite3Exists = true →
      (RAGEngine.construct env w).trace = [Event.chromaLoad] ∧
      ∃ e, (RAGEngine.construct env w).out = .ok e ∧
        e.vectorstore = some (.loadedFrom VECTORSTORE_DIR)) ∧
    (w.chromaSqlite3Exists = false →
      Event.chromaLoad ∉ (RAGEngine.construct env w).trace ∧
      ∀ e, (RAGEngine.construct env w).out = .ok e →
        (RAGEngine.construct env w).trace =
          [Event.loadPdf, Event.splitDocuments, Event.embedCall,
           Event.chromaBuild] ∧
        e.vectorstore = some (.builtFrom (env.splitDocs env.pdfPages))) := by
  constructor
  · intro h
    simp [RAGEngine.construct, engineInit, vectorstoreExists, loadVectorstore,
      createRagChain, h]
  · intro h
    cases hp : w.pdfExists with
    | false =>
      simp [RAGEngine.construct, engineInit, vectorstoreExists,
        createVectorstore, h, hp]
    | true =>
      cases he : env.embedFails with
      | true =>
        simp [RAGEngine.construct, engineInit, vectorstoreExists,
          createVectorstore, h, hp, he]
      | false =>
        simp [RAGEngine.construct, engineInit, vectorstoreExists,
          createVectorstore, createRagChain, h, hp, he]

/-- C1 witness: the load path on a world with the catalog present, the
ingestion path on a world without it. -/
theorem c1_witness :
    (RAGEngine.construct envA wReady).trace = [Event.chromaLoad] ∧
    (RAGEngine.construct envA wFresh).trace =
      [Event.loadPdf, Event.splitDocuments, Event.embedCall,
       Event.chromaBuild] :=
  ⟨((c1_load_or_ingest envA wReady).1 rfl).1,
   (((c1_load_or_ingest envA wFresh).2 rfl).2 engineFresh rfl).1⟩

/-- C4: a question whose length is below 3 or above 500 (so also the length-2,
length-501 and empty questions) is rejected by the request model before the
handler body runs: the response is a 422, no engine is constructed and no
retrieval or generation event occurs. -/
theorem c4_length_validation (env : Env) (inst : Option RAGEngine) (w : World)
    (q : String) (h : q.length < 3 ∨ 500 < q.length) :
    (queryEndpoint env inst w q).resp = QueryHttp.error422 ∧
    (queryEndpoint env inst w q).trace = [] ∧
    (queryEndpoint env inst w q).inst = inst ∧
    (queryEndpoint env inst w q).world = w := by
  have hv : queryRequestValid q = false := by
    simp only [queryRequestValid, Bool.and_eq_false_iff, decide_eq_false_iff_not]
    omega
  simp [queryEndpoint, hv]

/-- C4 witness: the length-2 question and the length-501 question are both
rejected with an empty trace. -/
theorem c4_witness :
    (queryEndpoint envA (some engineReady) wReady "ab").resp =
        QueryHttp.error422 ∧
    (queryEndpoint envA (some engineReady) wReady "ab").trace = [] ∧
    (queryEndpoint envA none wReady q501).resp = QueryHttp.error422 ∧
    (queryEndpoint envA none wReady q501).trace = [] := by
  have h2 := c4_length_validation envA (some engineReady) wReady "ab"
    (Or.inl (by decide))
  have h501 := c4_length_validation envA none wReady q501
    (Or.inr (by
      have hlen : q501.length = 501 := List.length_replicate 501 (Char.ofNat 97)
      omega))
  exact ⟨h2.1, h2.2.1, h501.1, h501.2.1⟩

/-- C7: `get_rag_engine` is a process-wide singleton: when the first call (on
an empty global) succeeds, the instance is cached, and every later call
returns that very object with no initialisation work (empty trace) and no
state change. -/
theorem c7_singleton (env : Env) (w : World) (e : RAGEngine)
    (h : (getRagEngine env none w).out = .ok e) :
    (getRagEngine env none w).inst = some e ∧
    ∀ w' : World,
      getRagEngine env (some e) w' = ⟨.ok e, some e, w', []⟩ := by
  refine ⟨?_, fun w' => rfl⟩
  cases hc : (RAGEngine.construct env w).out with
  | ok e0 =>
    simp [getRagEngine, hc] at h ⊢
    exact h
  | error err => simp [getRagEngine, hc] at h

/-- C7 witness: with the fixture environment, the first call caches the loaded
engine and a second call returns it unchanged without re-initialising. -/
theorem c7_witness :
    (getRagEngine envA none wReady).inst = some engineReady ∧
    getRagEngine envA (some engineReady) wFresh =
      ⟨.ok engineReady, some engineReady, wFresh, []⟩ :=
  ⟨(c7_singleton envA wReady engineReady rfl).1,
   (c7_singleton envA wReady engineReady rfl).2 wFresh⟩

/-- C10: the health endpoint is total by construction (it returns a
`HealthResponse` on every path); it reports `healthy` with
`vectorstore_ready = true` exactly when obtaining the engine succeeds with a
non-`None` vectorstore field, and reports `unhealthy` with
`vectorstore_ready = false` whenever obtaining the engine raises. -/
theorem c10_health_total (env : Env) (inst : Option RAGEngine) (w : World) :
    ((healthCheck env inst w).resp.status = "healthy" ∧
        (healthCheck env inst w).resp.vectorstore_ready = true ↔
      ∃ e, (getRagEngine env inst w).out = .ok e ∧
        e.vectorstore.isSome = true) ∧
    (∀ err, (getRagEngine env inst w).out = .error err →
      (healthCheck env inst w).resp =
        ⟨"unhealthy", "Error: " ++ err.str, false⟩) := by
  cases hg : (getRagEngine env inst w).out with
  | ok e => simp [healthCheck, hg]
  | error err => simp [healthCheck, hg]

/-- C10 witness: a failing first construction (no catalog, no PDF) yields the
unhealthy response with `vectorstore_ready = false`. -/
theorem c10_witness :
    (healthCheck envA none wNoCatNoPdf).resp =
      ⟨"unhealthy", "Error: " ++ Err.str (.fileNotFound pdfNotFoundMsg),
        false⟩ :=
  (c10_health_total envA none wNoCatNoPdf).2 (.fileNotFound pdfNotFoundMsg) rfl

/-- C2 counterexample: a ready engine, a persisted catalog, but the PDF is
gone.  `rebuild_vectorstore` deletes the persisted index, the re-ingestion
raises, yet the engine object is completely unchanged: a subsequent `query`
still succeeds through the stale chain and the health endpoint still reports
`healthy`.  The orchestrator therefore does continue to serve queries as if
the old index were valid — there is no FAILED state. -/
theorem c2_counterexample :
    (RAGEngine.rebuild envA engineReady wNoPdf).out =
        .error (.fileNotFound pdfNotFoundMsg) ∧
    (RAGEngine.rebuild envA engineReady wNoPdf).engine = engineReady ∧
    (RAGEngine.query envA (RAGEngine.rebuild envA engineReady wNoPdf).engine
        (RAGEngine.rebuild envA engineReady wNoPdf).world "hola").out =
      .ok resultA ∧
    (healthCheck envA
        (some (RAGEngine.rebuild envA engineReady wNoPdf).engine)
        (RAGEngine.rebuild envA engineReady wNoPdf).world).resp.status =
      "healthy" :=
  ⟨rfl, rfl, rfl, rfl⟩

/-- C2 amended: when rebuild deletes the persisted index and re-ingestion
fails because the PDF is missing, the exception propagates (the HTTP adapter
answers 500, so the failure is not silent) and the persisted catalog stays
deleted; but the engine has no FAILED state: its in-memory fields are exactly
as before the call, the singleton still holds it, and queries keep being
served through the stale in-memory chain. -/
theorem c2_failed_rebuild (env : Env) (e : RAGEngine) (w : World)
    (hdir : w.vectorstoreDirExists = true) (hpdf : w.pdfExists = false) :
    (RAGEngine.rebuild env e w).out =
        .error (.fileNotFound pdfNotFoundMsg) ∧
    (RAGEngine.rebuild env e w).engine = e ∧
    (RAGEngine.rebuild env e w).world.chromaSqlite3Exists = false ∧
    (RAGEngine.rebuild env e w).trace = [Event.deleteDir] ∧
    (rebuildEndpoint env (some e) w).resp =
        .error500 ("Error al reconstruir vectorstore: " ++ pdfNotFoundMsg) ∧
    (rebuildEndpoint env (some e) w).inst = some e := by
  refine ⟨?_, ?_, ?_, ?_, ?_, ?_⟩ <;>
    simp [RAGEngine.rebuild, rebuildEndpoint, getRagEngine, createVectorstore,
      Err.str, hdir, hpdf]

/-- C2 witness: the amended statement at the concrete fixture. -/
theorem c2_witness :
    (RAGEngine.rebuild envA engineFresh wNoPdf).out =
        .error (.fileNotFound pdfNotFoundMsg) ∧
    (RAGEngine.rebuild envA engineFresh wNoPdf).engine = engineFresh ∧
    (RAGEngine.rebuild envA engineFresh wNoPdf).world.chromaSqlite3Exists =
        false ∧
    (RAGEngine.rebuild envA engineFresh wNoPdf).trace = [Event.deleteDir] ∧
    (rebuildEndpoint envA (some engineFresh) wNoPdf).resp =
        .error500 ("Error al reconstruir vectorstore: " ++ pdfNotFoundMsg) ∧
    (rebuildEndpoint envA (some engineFresh) wNoPdf).inst =
        some engineFresh :=
  c2_failed_rebuild envA engineFresh wNoPdf rfl rfl

/-- C8 counterexample: a retrieval-phase failure and a generation-phase
failure carrying the same exception message produce the identical 500 detail
string, so the detail cannot state which phase failed. -/
theorem c8_counterexample :
    (queryEndpoint envRetFail (some engineReady) wReady "hola").resp =
        QueryHttp.error500 "Error al procesar consulta: fallo" ∧
    (queryEndpoint envGenFail (some engineReady) wReady "hola").resp =
        QueryHttp.error500 "Error al procesar consulta: fallo" ∧
    (queryEndpoint envRetFail (some engineReady) wReady "hola").trace =
        [Event.retrieve] ∧
    (queryEndpoint envGenFail (some engineReady) wReady "hola").trace =
        [Event.retrieve, Event.generate] ∧
    Err.phase (.storeError "fallo") ≠ Err.phase (.generationError "fallo") :=
  ⟨rfl, rfl, rfl, rfl, by decide⟩

/-- C8 amended: every core error raised during a query (past validation) or a
rebuild is mapped by the HTTP adapter to a 500 whose human-readable detail is
the fixed per-endpoint prefix plus the exception's own message; the detail
identifies the endpoint, not the failing phase. -/
theorem c8_error_mapping (env : Env) (e : RAGEngine) (w : World) (q : String) :
    (∀ err, queryRequestValid q = true →
      (RAGEngine.query env e w q).out = .error err →
      (queryEndpoint env (some e) w q).resp =
        QueryHttp.error500 ("Error al procesar consulta: " ++ err.str)) ∧
    (∀ err, (RAGEngine.rebuild env e w).out = .error err →
      (rebuildEndpoint env (some e) w).resp =
        RebuildHttp.error500 ("Error al reconstruir vectorstore: " ++ err.str)) := by
  constructor
  · intro err hv hq
    simp [queryEndpoint, getRagEngine, hv, hq]
  · intro err hr
    simp [rebuildEndpoint, getRagEngine, hr]

/-- C8 witness: a generation failure during query and a load failure during
rebuild, both mapped to 500 with the prefixed message. -/
theorem c8_witness :
    (queryEndpoint envGenFail (some engineReady) wReady "hola").resp =
        QueryHttp.error500
          ("Error al procesar consulta: " ++
            Err.str (.generationError "fallo")) ∧
    (rebuildEndpoint envA (some engineFresh) wNoCatNoPdf).resp =
        RebuildHttp.error500
          ("Error al reconstruir vectorstore: " ++
            Err.str (.fileNotFound pdfNotFoundMsg)) :=
  ⟨(c8_error_mapping envGenFail engineReady wReady "hola").1
      (.generationError "fallo") rfl rfl,
   (c8_error_mapping envA engineFresh wNoCatNoPdf "hola").2
      (.fileNotFound pdfNotFoundMsg) rfl⟩

/-- C9 witness: `docLong` has no page metadata, yet the fixture query succeeds
and its source page is `N/A`. -/
theorem c9_witness :
    (RAGEngine.query envA engineReady wReady "hola").out =
        .ok ⟨"La tutela es un mecanismo constitucional",
             [docShort, docLong].map mkSource, "hola"⟩ ∧
    (mkSource docLong).page = PageVal.na := by
  have h := c9_missing_page_defaults envA engineReady wReady "hola"
    [docShort, docLong] "La tutela es un mecanismo constitucional" rfl rfl rfl
  exact ⟨h.1, h.2 docLong (by simp) rfl⟩

end RagJuridico
